import Mathlib

/-!
# TheRawKing backend — shallow embedding

A shallow embedding of the checkout / order / webhook logic of
`main.py` (FastAPI app) and the data model of `schemas.py`.

Modelling choices:
* Decimal prices (Python `float`) are modelled as exact rationals `ℚ`;
  Python `int(x)` (truncation toward zero) is `pyInt`.
* The MongoDB collections are association lists:
  - products: `List ProductDoc` looked up by id,
  - orders: `List OrderDoc`,
  - email subscribers: `List String`.
* The Stripe gateway is an external collaborator: it is a parameter
  `gw : GatewayRequest → Except String SessionObj` (a `StripeError` is the
  `.error` case carrying the provider message).  The requests issued are
  recorded in the result so that "no session was created" is observable.
* `stripe.Webhook.construct_event` (signature verification + parsing of
  the raw body) is likewise a parameter `constructEvent`, the outcome of
  verifying the raw body of this delivery against its signature header.
* Python truthiness of an optional string (`if not STRIPE_WEBHOOK_SECRET`,
  `if ... and session_id`) is `strTruthy`: `none` and `some ""` are falsy.
-/

/-- Python truthiness of an optional string: `None` and `""` are falsy. -/
def strTruthy : Option String → Bool
  | none => false
  | some s => s ≠ ""

/-- Python `str.lower()`, modelled character-wise (`Char.toLower` on each
character), written structurally over the character list so that it
evaluates on concrete e-mails. -/
def strLower (s : String) : String := ⟨s.data.map Char.toLower⟩

/-- Python `int()` applied to a rational: truncation toward zero.
`/` on `ℤ` is Euclidean division, which for a positive denominator is
floor division, so the negative case is routed through the negation. -/
def pyInt (q : ℚ) : ℤ :=
  if 0 ≤ q.num then q.num / (q.den : ℤ) else -((-q.num) / (q.den : ℤ))

/-- A stored `Product` document (fields of `schemas.Product` that the
checkout logic reads, plus its Mongo `_id` as a string). -/
structure ProductDoc where
  id : String
  title : String
  price : ℚ
  currency : String
  images : List String
deriving Repr, DecidableEq

/-- A cart line of `CreateCheckoutRequest` (`CreateCheckoutItem`). -/
structure CheckoutItem where
  product_id : String
  quantity : ℕ
  size : Option String
deriving Repr, DecidableEq

/-- The `CreateCheckoutRequest` body: optional email plus the cart. -/
structure CheckoutRequest where
  email : Option String
  items : List CheckoutItem
deriving Repr, DecidableEq

/-- One Stripe line item as built in `create_checkout_session`:
`price_data.currency`, `product_data.name`, `product_data.images`,
`price_data.unit_amount`, `quantity`. -/
structure LineItem where
  currency : String
  name : String
  images : List String
  unit_amount : ℤ
  quantity : ℕ
deriving Repr, DecidableEq

/-- An embedded `OrderItem` document (`schemas.OrderItem`). -/
structure OrderItemDoc where
  product_id : String
  title : String
  price : ℚ
  quantity : ℕ
  size : Option String
deriving Repr, DecidableEq

/-- An `Order` document (`schemas.Order`). -/
structure OrderDoc where
  email : String
  items : List OrderItemDoc
  total : ℚ
  currency : String
  payment_status : String
  stripe_payment_intent_id : Option String
  stripe_session_id : Option String
deriving Repr, DecidableEq

/-- The Stripe checkout session object returned by
`stripe.checkout.Session.create`: its id, its `payment_intent` (already a
string, or absent/not-yet-a-string, cf. the `isinstance` check), its url. -/
structure SessionObj where
  id : String
  payment_intent : Option String
  url : String
deriving Repr, DecidableEq

/-- What `create_checkout_session` sends to the gateway (the parts built
from the request: the line items and the `customer_email`, which is
`payload.email if payload.email else None`). -/
structure GatewayRequest where
  line_items : List LineItem
  customer_email : Option String
deriving Repr, DecidableEq

/-- Errors raised (as `HTTPException`) by `create_checkout_session`. -/
inductive CheckoutErr where
  /-- HTTP 500 "Stripe not configured. Set STRIPE_SECRET_KEY." -/
  | stripeNotConfigured : CheckoutErr
  /-- HTTP 500 "Database not available" -/
  | dbUnavailable : CheckoutErr
  /-- HTTP 404, product not found -/
  | notFound (product_id : String) : CheckoutErr
  /-- HTTP 400, the message of the `StripeError` -/
  | paymentGateway (msg : String) : CheckoutErr
deriving Repr, DecidableEq

/-- The whole outcome of one `create_checkout_session` call: the HTTP
response (`{"url": ...}` on success), the gateway session-creation
requests that were issued, and the final order collection. -/
structure CheckoutResult where
  response : Except CheckoutErr String
  gatewayCalls : List GatewayRequest
  orders : List OrderDoc
deriving Repr

/-- The per-item loop of `create_checkout_session`: resolve each cart
product of each item, abort with 404 on the first one that does not resolve,
otherwise accumulate the Stripe line item and the `OrderItem` snapshot. -/
def buildItems (store : List ProductDoc) :
    List CheckoutItem → Except CheckoutErr (List LineItem × List OrderItemDoc)
  | [] => .ok ([], [])
  | item :: rest =>
    match store.find? (fun p => p.id = item.product_id) with
    | none => .error (.notFound item.product_id)
    | some prod =>
      let price_in_cents := pyInt (prod.price * 100)
      let image : Option String := prod.images.head?
      let li : LineItem :=
        { currency := prod.currency
          name := prod.title
          images := match image with
                    | some s => if s ≠ "" then [s] else []
                    | none => []
          unit_amount := price_in_cents
          quantity := item.quantity }
      let oi : OrderItemDoc :=
        { product_id := item.product_id
          title := prod.title
          price := prod.price
          quantity := item.quantity
          size := item.size }
      match buildItems store rest with
      | .error e => .error e
      | .ok (lis, ois) => .ok (li :: lis, oi :: ois)

/-- The `Order` persisted on the success path of
`create_checkout_session`: `total = sum(oi.price * oi.quantity)`,
`email = payload.email or ""`, currency hard-coded `"usd"`, status
`"pending"`, session/payment-intent references from the session. -/
def checkoutOrder (payload : CheckoutRequest) (order_items : List OrderItemDoc)
    (session : SessionObj) : OrderDoc :=
  { email := payload.email.getD ""
    items := order_items
    total := (order_items.map (fun oi => oi.price * (oi.quantity : ℚ))).sum
    currency := "usd"
    payment_status := "pending"
    stripe_payment_intent_id := session.payment_intent
    stripe_session_id := some session.id }

/-- Endpoint `POST /api/create-checkout-session`.  `stripeKey`/`dbAvail` model the
`STRIPE_SECRET_KEY` env var and `db is None`; `gw` is
`stripe.checkout.Session.create`; `orderInsertOk` is whether
`create_document("order", order)` succeeds (its failure is swallowed). -/
def create_checkout_session (stripeKey : Option String) (dbAvail : Bool)
    (gw : GatewayRequest → Except String SessionObj) (orderInsertOk : Bool)
    (store : List ProductDoc) (orders : List OrderDoc)
    (payload : CheckoutRequest) : CheckoutResult :=
  if ¬ strTruthy stripeKey then
    ⟨.error .stripeNotConfigured, [], orders⟩
  else if ¬ dbAvail then
    ⟨.error .dbUnavailable, [], orders⟩
  else
    match buildItems store payload.items with
    | .error e => ⟨.error e, [], orders⟩
    | .ok (line_items, order_items) =>
      let req : GatewayRequest :=
        { line_items := line_items
          customer_email := if strTruthy payload.email then payload.email else none }
      match gw req with
      | .error msg => ⟨.error (.paymentGateway msg), [req], orders⟩
      | .ok session =>
        let order := checkoutOrder payload order_items session
        ⟨.ok session.url, [req],
          if orderInsertOk then orders ++ [order] else orders⟩

/-- A Stripe webhook event as read by `stripe_webhook`: its `type` and
`event["data"]["object"].get("id")` (the session id or the
payment-intent id, depending on the type). -/
structure StripeEvent where
  type : String
  objId : Option String
deriving Repr, DecidableEq

/-- The error raised by `stripe_webhook`:
400 `"Webhook error: {e}"` on failed signature verification. -/
inductive WebhookErr where
  | badRequest (detail : String) : WebhookErr
deriving Repr, DecidableEq

/-- The acknowledgment body of `stripe_webhook`:
`{"received": true}` with an optional `"warning"` field. -/
structure WebhookResp where
  received : Bool
  warning : Option String
deriving Repr, DecidableEq

/-- Model of `db["order"].update_one({"stripe_session_id": sid}, {"$set":
{"payment_status": "paid", ...}})`: sets the first matching order (if
any) to `"paid"`. -/
def setPaidBySession : List OrderDoc → String → List OrderDoc
  | [], _ => []
  | o :: rest, sid =>
    if o.stripe_session_id = some sid then
      { o with payment_status := "paid" } :: rest
    else
      o :: setPaidBySession rest sid

/-- Model of `db["order"].update_many({"stripe_payment_intent_id": pid}, {"$set":
{"payment_status": "failed", ...}})`: sets every matching order to
`"failed"`. -/
def setFailedByIntent (orders : List OrderDoc) (pid : String) : List OrderDoc :=
  orders.map (fun o =>
    if o.stripe_payment_intent_id = some pid then
      { o with payment_status := "failed" }
    else o)

/-- Endpoint `POST /api/stripe/webhook`.  `webhookSecret` is the
`STRIPE_WEBHOOK_SECRET` env var; `constructEvent` is the outcome of
`stripe.Webhook.construct_event` on the raw body of this delivery and
signature header (`.error` = verification failure). -/
def stripe_webhook (webhookSecret : Option String) (dbAvail : Bool)
    (constructEvent : Except String StripeEvent)
    (orders : List OrderDoc) : Except WebhookErr WebhookResp × List OrderDoc :=
  if ¬ strTruthy webhookSecret then
    (.ok ⟨true, some "No webhook secret set"⟩, orders)
  else
    match constructEvent with
    | .error e => (.error (.badRequest ("Webhook error: " ++ e)), orders)
    | .ok event =>
      let orders1 :=
        if event.type = "checkout.session.completed" then
          if dbAvail ∧ strTruthy event.objId then
            setPaidBySession orders (event.objId.getD "")
          else orders
        else orders
      let orders2 :=
        if event.type = "payment_intent.payment_failed" then
          if dbAvail ∧ strTruthy event.objId then
            setFailedByIntent orders1 (event.objId.getD "")
          else orders1
        else orders1
      (.ok ⟨true, none⟩, orders2)

/-- Endpoint `POST /api/subscribe`: lower-case the email, no-op if already stored,
otherwise insert; `{"ok": true}` either way (with a message on the
duplicate path). -/
def subscribe_email (dbAvail : Bool) (subs : List String) (email : String) :
    Except CheckoutErr (Bool × Option String) × List String :=
  if ¬ dbAvail then (.error .dbUnavailable, subs)
  else
    let e := strLower email
    if subs.contains e then (.ok (true, some "Already subscribed"), subs)
    else (.ok (true, none), subs ++ [e])

/-! ## Concrete sample data -/

/-- A fixed successfully-created gateway session. -/
def demoSession : SessionObj :=
  { id := "cs_1", payment_intent := none, url := "https://pay.example/cs_1" }

/-- A gateway stub that always succeeds with `demoSession`. -/
def okGateway : GatewayRequest → Except String SessionObj :=
  fun _ => Except.ok demoSession

/-- A gateway stub that always fails with a provider message. -/
def failGateway : GatewayRequest → Except String SessionObj :=
  fun _ => Except.error "No such currency: xyz"

/-- A one-product catalog (price is a whole number of dollars). -/
def demoStore : List ProductDoc :=
  [{ id := "p1", title := "Lunar Phase Tee", price := 45, currency := "usd",
     images := ["https://img.example/tee.jpg"] }]

/-- A cart buying two size-M units of the product in `demoStore`. -/
def demoCart : CheckoutRequest :=
  { email := none, items := [{ product_id := "p1", quantity := 2, size := some "M" }] }

/-- The Stripe line item `create_checkout_session` builds for
`demoCart` against `demoStore`. -/
def demoLineItem : LineItem :=
  { currency := "usd", name := "Lunar Phase Tee",
    images := ["https://img.example/tee.jpg"], unit_amount := 4500, quantity := 2 }

/-- The order-item snapshot `create_checkout_session` builds for
`demoCart` against `demoStore`. -/
def demoOrderItem : OrderItemDoc :=
  { product_id := "p1", title := "Lunar Phase Tee", price := 45, quantity := 2,
    size := some "M" }

/-- A catalog where the price of the single product is not a whole number of
cents (half a cent). -/
def halfCentStore : List ProductDoc :=
  [{ id := "p1", title := "Half Cent Tee", price := 1/200, currency := "usd", images := [] }]

/-- The cart for `halfCentStore`: two units of the half-cent product. -/
def halfCentCart : CheckoutRequest :=
  { email := none, items := [{ product_id := "p1", quantity := 2, size := none }] }

/-- An order already settled as `paid`, referencing payment intent
`pi_1` and session `cs_1`. -/
def paidOrder : OrderDoc :=
  { email := "c@example.com", items := [], total := 45, currency := "usd",
    payment_status := "paid",
    stripe_payment_intent_id := some "pi_1", stripe_session_id := some "cs_1" }

/-- A pending order referencing payment intent `pi_1` and session
`cs_1`. -/
def pendingOrder : OrderDoc :=
  { email := "c@example.com", items := [], total := 45, currency := "usd",
    payment_status := "pending",
    stripe_payment_intent_id := some "pi_1", stripe_session_id := some "cs_1" }

/-! ## Helper lemmas -/

/-- On a rational that is a whole number (denominator 1), Python `int()`
is the numerator. -/
theorem pyInt_of_den_one (q : ℚ) (h : q.den = 1) : pyInt q = q.num := by
  unfold pyInt
  rw [h]
  split
  · simp
  · simp

/-- A rational with denominator 1 equals the cast of its numerator. -/
theorem ratCast_num_of_den_one (q : ℚ) (h : q.den = 1) : (q.num : ℚ) = q :=
  (Rat.den_eq_one_iff q).mp h

/-- When the snapshotted price of every purchased item is a whole
number of minor units (`price * 100` has denominator 1), the gateway
amount `Σ unit_amount × quantity` equals `100 ×` the order-items total
`Σ price × quantity`. -/
theorem buildItems_cents (store : List ProductDoc) :
    ∀ items lis ois, buildItems store items = Except.ok (lis, ois) →
      (∀ oi ∈ ois, (oi.price * 100).den = 1) →
      (((lis.map (fun li => li.unit_amount * (li.quantity : ℤ))).sum : ℤ) : ℚ)
        = 100 * (ois.map (fun oi => oi.price * (oi.quantity : ℚ))).sum := by
  intro items
  induction items with
  | nil =>
    intro lis ois h _
    simp [buildItems] at h
    obtain ⟨h1, h2⟩ := h
    subst h1; subst h2
    simp
  | cons it rest ih =>
    intro lis ois h hc
    simp only [buildItems] at h
    cases hf : store.find? (fun p => p.id = it.product_id) with
    | none => rw [hf] at h; simp at h
    | some prod =>
      rw [hf] at h
      cases hb : buildItems store rest with
      | error e => rw [hb] at h; simp at h
      | ok pr =>
        obtain ⟨lis0, ois0⟩ := pr
        rw [hb] at h
        simp only [Except.ok.injEq, Prod.mk.injEq] at h
        obtain ⟨h1, h2⟩ := h
        subst h1; subst h2
        have hden : (prod.price * 100).den = 1 :=
          hc _ (List.mem_cons_self _ _)
        have hrec := ih lis0 ois0 hb
          (fun oi hoi => hc oi (List.mem_cons_of_mem _ hoi))
        simp only [List.map_cons, List.sum_cons]
        push_cast
        push_cast at hrec
        rw [hrec, pyInt_of_den_one _ hden, ratCast_num_of_den_one _ hden]
        ring

/-- If the product id of some cart item does not resolve, the per-item loop
fails with a 404 for an unresolvable product id. -/
theorem buildItems_missing (store : List ProductDoc) :
    ∀ items : List CheckoutItem,
      (∃ it ∈ items, store.find? (fun p => p.id = it.product_id) = none) →
      ∃ pid, store.find? (fun p => p.id = pid) = none ∧
        buildItems store items = Except.error (CheckoutErr.notFound pid) := by
  intro items
  induction items with
  | nil => rintro ⟨it, hmem, _⟩; simp at hmem
  | cons it rest ih =>
    rintro ⟨it0, hmem, hnone⟩
    cases hf : store.find? (fun p => p.id = it.product_id) with
    | none =>
      exact ⟨it.product_id, hf, by simp only [buildItems]; rw [hf]⟩
    | some prod =>
      have hit0 : it0 ∈ rest := by
        rcases List.mem_cons.mp hmem with h | h
        · subst h; rw [hf] at hnone; exact absurd hnone (by simp)
        · exact h
      obtain ⟨pid, hpid, herr⟩ := ih ⟨it0, hit0, hnone⟩
      refine ⟨pid, hpid, ?_⟩
      simp only [buildItems]
      rw [hf, herr]

/-- On the success path, each line item carries the currency stored on
the product that the corresponding cart item resolved to. -/
theorem buildItems_currency (store : List ProductDoc) :
    ∀ items lis ois, buildItems store items = Except.ok (lis, ois) →
      List.Forall₂
        (fun (it : CheckoutItem) (li : LineItem) =>
          ∃ p, store.find? (fun q => q.id = it.product_id) = some p ∧
            li.currency = p.currency)
        items lis := by
  intro items
  induction items with
  | nil =>
    intro lis ois h
    simp [buildItems] at h
    simp [h.1]
  | cons it rest ih =>
    intro lis ois h
    simp only [buildItems] at h
    cases hf : store.find? (fun p => p.id = it.product_id) with
    | none => rw [hf] at h; simp at h
    | some prod =>
      rw [hf] at h
      cases hb : buildItems store rest with
      | error e => rw [hb] at h; simp at h
      | ok pr =>
        obtain ⟨lis0, ois0⟩ := pr
        rw [hb] at h
        simp only [Except.ok.injEq, Prod.mk.injEq] at h
        obtain ⟨h1, h2⟩ := h
        subst h1; subst h2
        exact List.Forall₂.cons ⟨prod, hf, rfl⟩ (ih lis0 ois0 hb)

/-- The `update_one` on the session id is the identity when no stored order
references that session. -/
theorem setPaidBySession_no_match :
    ∀ (orders : List OrderDoc) (sid : String),
      (∀ o ∈ orders, o.stripe_session_id ≠ some sid) →
      setPaidBySession orders sid = orders := by
  intro orders sid
  induction orders with
  | nil => intro _; rfl
  | cons o rest ih =>
    intro h
    simp only [setPaidBySession]
    rw [if_neg (by simpa using h o (by simp))]
    rw [ih (fun o' ho' => h o' (by simp [ho']))]

/-- The `update_many` on the payment-intent id is the identity when no
stored order references that intent. -/
theorem setFailedByIntent_no_match :
    ∀ (orders : List OrderDoc) (pid : String),
      (∀ o ∈ orders, o.stripe_payment_intent_id ≠ some pid) →
      setFailedByIntent orders pid = orders := by
  intro orders pid
  induction orders with
  | nil => intro _; rfl
  | cons o rest ih =>
    intro h
    simp only [setFailedByIntent, List.map_cons]
    rw [if_neg (by simpa using h o (by simp))]
    have : setFailedByIntent rest pid = rest :=
      ih (fun o' ho' => h o' (by simp [ho']))
    simpa [setFailedByIntent] using this

/-! ## Claims -/

/-- C3. A cart containing a product id that does not resolve makes
`create_checkout_session` fail with a 404 `NotFound`; the whole request
aborts: no gateway session-creation call is issued and the order
collection is unchanged. -/
theorem checkout_missing_product_aborts
    (stripeKey : Option String) (gw : GatewayRequest → Except String SessionObj)
    (orderInsertOk : Bool) (store : List ProductDoc) (orders : List OrderDoc)
    (payload : CheckoutRequest)
    (hkey : strTruthy stripeKey = true)
    (hmiss : ∃ it ∈ payload.items,
      store.find? (fun p => p.id = it.product_id) = none) :
    ∃ pid,
      (create_checkout_session stripeKey true gw orderInsertOk store orders
          payload).response = Except.error (CheckoutErr.notFound pid) ∧
      (create_checkout_session stripeKey true gw orderInsertOk store orders
          payload).gatewayCalls = [] ∧
      (create_checkout_session stripeKey true gw orderInsertOk store orders
          payload).orders = orders := by
  obtain ⟨pid, _, herr⟩ := buildItems_missing store payload.items hmiss
  exact ⟨pid, by simp [create_checkout_session, hkey, herr],
    by simp [create_checkout_session, hkey, herr],
    by simp [create_checkout_session, hkey, herr]⟩

/-- C4. When the gateway rejects the session-creation call,
`create_checkout_session` fails with `PaymentGatewayError` carrying the
provider message, and no order is persisted. -/
theorem checkout_gateway_failure_no_order
    (stripeKey : Option String) (gw : GatewayRequest → Except String SessionObj)
    (orderInsertOk : Bool) (store : List ProductDoc) (orders : List OrderDoc)
    (payload : CheckoutRequest) (lis : List LineItem) (ois : List OrderItemDoc)
    (msg : String)
    (hkey : strTruthy stripeKey = true)
    (hb : buildItems store payload.items = Except.ok (lis, ois))
    (hg : gw { line_items := lis,
               customer_email :=
                 if strTruthy payload.email then payload.email else none }
          = Except.error msg) :
    (create_checkout_session stripeKey true gw orderInsertOk store orders
        payload).response = Except.error (CheckoutErr.paymentGateway msg) ∧
    (create_checkout_session stripeKey true gw orderInsertOk store orders
        payload).orders = orders := by
  constructor <;> simp [create_checkout_session, hkey, hb, hg]

/-- C5. When the gateway session was created but persisting the
order fails (`create_document` raises, the exception is swallowed),
`create_checkout_session` still answers with the redirect URL of the session,
not an error. -/
theorem checkout_persist_failure_still_returns_url
    (stripeKey : Option String) (gw : GatewayRequest → Except String SessionObj)
    (store : List ProductDoc) (orders : List OrderDoc)
    (payload : CheckoutRequest) (lis : List LineItem) (ois : List OrderItemDoc)
    (sess : SessionObj)
    (hkey : strTruthy stripeKey = true)
    (hb : buildItems store payload.items = Except.ok (lis, ois))
    (hg : gw { line_items := lis,
               customer_email :=
                 if strTruthy payload.email then payload.email else none }
          = Except.ok sess) :
    (create_checkout_session stripeKey true gw false store orders
        payload).response = Except.ok sess.url ∧
    (create_checkout_session stripeKey true gw false store orders
        payload).orders = orders := by
  constructor <;> simp [create_checkout_session, hkey, hb, hg]

/-- C2 (amended). On a successful checkout of a valid cart, the
total of the persisted order is `Σ snapshotted price × quantity`,
unconditionally; and whenever the snapshotted price of every purchased
item is a whole number of minor units, `100 × total` equals the
gateway `Σ unit_amount × quantity` to the cent. -/
theorem checkout_total_matches_gateway
    (stripeKey : Option String) (gw : GatewayRequest → Except String SessionObj)
    (store : List ProductDoc) (orders : List OrderDoc)
    (payload : CheckoutRequest) (lis : List LineItem) (ois : List OrderItemDoc)
    (sess : SessionObj)
    (hkey : strTruthy stripeKey = true)
    (hb : buildItems store payload.items = Except.ok (lis, ois))
    (hg : gw { line_items := lis,
               customer_email :=
                 if strTruthy payload.email then payload.email else none }
          = Except.ok sess) :
    (create_checkout_session stripeKey true gw true store orders
        payload).orders = orders ++ [checkoutOrder payload ois sess] ∧
    (checkoutOrder payload ois sess).total
      = (ois.map (fun oi => oi.price * (oi.quantity : ℚ))).sum ∧
    ((∀ oi ∈ ois, (oi.price * 100).den = 1) →
      100 * (checkoutOrder payload ois sess).total
        = (((lis.map (fun li => li.unit_amount * (li.quantity : ℤ))).sum : ℤ) : ℚ)) := by
  refine ⟨by simp [create_checkout_session, hkey, hb, hg], rfl, ?_⟩
  intro hc
  rw [buildItems_cents store payload.items lis ois hb hc]
  rfl

/-- C10. Every order persisted by `create_checkout_session` carries
the hard-coded currency `"usd"`, whatever currencies the purchased
products store; the gateway line items carry the own stored
currency of each product; and when no email was supplied the order email is `""`. -/
theorem checkout_order_currency_usd
    (stripeKey : Option String) (gw : GatewayRequest → Except String SessionObj)
    (store : List ProductDoc) (orders : List OrderDoc)
    (payload : CheckoutRequest) (lis : List LineItem) (ois : List OrderItemDoc)
    (sess : SessionObj)
    (hkey : strTruthy stripeKey = true)
    (hb : buildItems store payload.items = Except.ok (lis, ois))
    (hg : gw { line_items := lis,
               customer_email :=
                 if strTruthy payload.email then payload.email else none }
          = Except.ok sess) :
    (create_checkout_session stripeKey true gw true store orders
        payload).orders = orders ++ [checkoutOrder payload ois sess] ∧
    (checkoutOrder payload ois sess).currency = "usd" ∧
    (payload.email = none → (checkoutOrder payload ois sess).email = "") ∧
    (create_checkout_session stripeKey true gw true store orders
        payload).gatewayCalls
      = [{ line_items := lis,
           customer_email :=
             if strTruthy payload.email then payload.email else none }] ∧
    List.Forall₂
      (fun (it : CheckoutItem) (li : LineItem) =>
        ∃ p, store.find? (fun q => q.id = it.product_id) = some p ∧
          li.currency = p.currency)
      payload.items lis := by
  refine ⟨by simp [create_checkout_session, hkey, hb, hg], rfl, ?_, ?_, ?_⟩
  · intro he; simp [checkoutOrder, he]
  · simp [create_checkout_session, hkey, hb, hg]
  · exact buildItems_currency store payload.items lis ois hb

/-- C2 counterexample. On a valid cart (product resolves, quantity
≥ 1) with unit price `0.005`, the total of the persisted order is `0.01`
(`1` minor unit), while the gateway was sent
`unit_amount = int(0.005 * 100) = 0` for quantity 2 (`0` minor units):
the totals do not agree to the cent. -/
theorem checkout_cents_disagree_cex :
    (create_checkout_session (some "sk_test") true okGateway true halfCentStore []
        halfCentCart).orders.map OrderDoc.total = [1/100] ∧
    (create_checkout_session (some "sk_test") true okGateway true halfCentStore []
        halfCentCart).gatewayCalls.map
        (fun r => r.line_items.map (fun li => li.unit_amount * (li.quantity : ℤ)))
      = [[0]] ∧
    100 * (1/100 : ℚ) ≠ (((0 : ℤ) : ℚ)) := by
  refine ⟨?_, ?_, by norm_num⟩
  · simp [create_checkout_session, halfCentStore, halfCentCart, okGateway,
      buildItems, checkoutOrder, strTruthy]
    norm_num
  · simp [create_checkout_session, halfCentStore, halfCentCart, okGateway,
      buildItems, strTruthy]
    norm_num [pyInt]

/-- C6. With a signing secret configured, a delivery whose
signature verification fails is rejected with a 400
(`"Webhook error: ..."`), and the order collection is untouched. -/
theorem webhook_invalid_signature_rejected
    (ws : Option String) (dbAvail : Bool) (e : String) (orders : List OrderDoc)
    (hsec : strTruthy ws = true) :
    stripe_webhook ws dbAvail (Except.error e) orders
      = (Except.error (WebhookErr.badRequest ("Webhook error: " ++ e)), orders) := by
  simp [stripe_webhook, hsec]

/-- C9. With no signing secret configured (unset or empty), every
delivery is acknowledged with a warning before the event is even
parsed: no dispatch happens and no order is touched, whatever the
event — including a well-formed completion or failure event. -/
theorem webhook_no_secret_no_dispatch
    (ws : Option String) (dbAvail : Bool) (ce : Except String StripeEvent)
    (orders : List OrderDoc)
    (hsec : strTruthy ws = false) :
    stripe_webhook ws dbAvail ce orders
      = (Except.ok { received := true, warning := some "No webhook secret set" },
         orders) := by
  simp [stripe_webhook, hsec]

/-- C7. A verified, dispatched event is always acknowledged with
`{"received": true}`: when no stored order references the
session/payment-intent id of the event, the update affects zero orders and the
handler still succeeds, and an unhandled event kind is likewise
acknowledged with no state change. -/
theorem webhook_unmatched_event_acked
    (ws : Option String) (dbAvail : Bool) (ev : StripeEvent)
    (orders : List OrderDoc)
    (hsec : strTruthy ws = true) :
    (stripe_webhook ws dbAvail (Except.ok ev) orders).1
      = Except.ok { received := true, warning := none } ∧
    ((∀ o ∈ orders, o.stripe_session_id ≠ ev.objId
        ∧ o.stripe_payment_intent_id ≠ ev.objId) →
      (stripe_webhook ws dbAvail (Except.ok ev) orders).2 = orders) ∧
    ((ev.type ≠ "checkout.session.completed"
        ∧ ev.type ≠ "payment_intent.payment_failed") →
      (stripe_webhook ws dbAvail (Except.ok ev) orders).2 = orders) := by
  refine ⟨by simp [stripe_webhook, hsec], ?_, ?_⟩
  · intro hno
    cases hobj : ev.objId with
    | none =>
      simp [stripe_webhook, hsec, hobj, strTruthy]
      split <;> rfl
    | some s =>
      by_cases hs : s = ""
      · simp [stripe_webhook, hsec, hobj, strTruthy, hs]
        split <;> rfl
      · have hp : setPaidBySession orders s = orders :=
          setPaidBySession_no_match orders s
            (fun o ho => by have := (hno o ho).1; rw [hobj] at this; exact this)
        have hq : setFailedByIntent orders s = orders :=
          setFailedByIntent_no_match orders s
            (fun o ho => by have := (hno o ho).2; rw [hobj] at this; exact this)
        simp [stripe_webhook, hsec, hobj, strTruthy, hs, hp, hq]
        split <;> rfl
  · rintro ⟨ht1, ht2⟩
    simp [stripe_webhook, hsec, ht1, ht2]

/-- C1 counterexample. An order whose `payment_status` is the
terminal `"paid"` is NOT left alone by a `payment_intent.payment_failed`
event referencing its payment-intent id: processing the event (secret
configured, signature valid) rewrites its status to `"failed"` — the
conflicting terminal transition is applied, not a no-op. -/
theorem webhook_paid_regresses_to_failed_cex :
    paidOrder.payment_status = "paid" ∧
    ((stripe_webhook (some "whsec_1") true
        (Except.ok { type := "payment_intent.payment_failed", objId := some "pi_1" })
        [paidOrder]).2.map OrderDoc.payment_status) = ["failed"] := by
  constructor
  · rfl
  · simp [stripe_webhook, setFailedByIntent, paidOrder, strTruthy]

/-- C1 (amended). A `payment_intent.payment_failed` event
referencing payment-intent id `pid` sets `payment_status := "failed"`
on every order whose `stripe_payment_intent_id` matches, regardless of
its current status: in particular an order already `paid` regresses to
`"failed"`; the conflicting terminal transition is applied, not a
no-op. Orders not referencing the intent are unchanged. -/
theorem webhook_intent_failure_overwrites_terminal
    (ws : Option String) (orders : List OrderDoc) (pid : String)
    (hsec : strTruthy ws = true) (hpid : pid ≠ "") :
    (stripe_webhook ws true
        (Except.ok { type := "payment_intent.payment_failed", objId := some pid })
        orders).2
      = orders.map (fun o =>
          if o.stripe_payment_intent_id = some pid then
            { o with payment_status := "failed" }
          else o) ∧
    ∀ o ∈ orders, o.stripe_payment_intent_id = some pid →
      { o with payment_status := "failed" } ∈
        (stripe_webhook ws true
            (Except.ok { type := "payment_intent.payment_failed", objId := some pid })
            orders).2 := by
  have h2 : (stripe_webhook ws true
      (Except.ok { type := "payment_intent.payment_failed", objId := some pid })
      orders).2 = setFailedByIntent orders pid := by
    have hq : strTruthy (some pid) = true := by simp [strTruthy, hpid]
    simp [stripe_webhook, hsec, hq]
  refine ⟨by rw [h2]; rfl, ?_⟩
  intro o ho hmatch
  rw [h2]
  have : { o with payment_status := "failed" }
      = (fun o => if o.stripe_payment_intent_id = some pid then
          { o with payment_status := "failed" } else o) o := by
    simp [hmatch]
  rw [setFailedByIntent, this]
  exact List.mem_map_of_mem _ ho

/-- C8. Subscribing is idempotent and lower-cases the email before
storage: a first subscription of a fresh email stores exactly one
record (the lower-cased email) and returns ok; subscribing again with
any casing of the same email returns ok without adding a second
record. -/
theorem subscribe_idempotent_lowercased
    (subs : List String) (email email2 : String)
    (hfresh : subs.contains (strLower email) = false)
    (hsame : strLower email2 = strLower email) :
    (subscribe_email true subs email).1 = Except.ok (true, none) ∧
    (subscribe_email true subs email).2 = subs ++ [strLower email] ∧
    (subscribe_email true (subscribe_email true subs email).2 email2).1
      = Except.ok (true, some "Already subscribed") ∧
    (subscribe_email true (subscribe_email true subs email).2 email2).2
      = (subscribe_email true subs email).2 := by
  have hfresh0 : strLower email ∉ subs := by simpa using hfresh
  have h1 : subscribe_email true subs email
      = (Except.ok (true, none), subs ++ [strLower email]) := by
    simp [subscribe_email, hfresh0]
  refine ⟨by rw [h1], by rw [h1], ?_, ?_⟩ <;>
    rw [h1] <;> simp [subscribe_email, hsame]

/-! ## Witnesses -/

/-- C3 witness: a cart naming the unknown product id `nope` against
the one-product demo catalog. -/
theorem checkout_missing_product_aborts_witness :
    strTruthy (some "sk_test") = true ∧
    (∃ it ∈ (CheckoutRequest.mk none [⟨"nope", 1, none⟩]).items,
      demoStore.find? (fun p => p.id = it.product_id) = none) ∧
    ∃ pid,
      (create_checkout_session (some "sk_test") true okGateway true demoStore []
          (CheckoutRequest.mk none [⟨"nope", 1, none⟩])).response
        = Except.error (CheckoutErr.notFound pid) ∧
      (create_checkout_session (some "sk_test") true okGateway true demoStore []
          (CheckoutRequest.mk none [⟨"nope", 1, none⟩])).gatewayCalls = [] ∧
      (create_checkout_session (some "sk_test") true okGateway true demoStore []
          (CheckoutRequest.mk none [⟨"nope", 1, none⟩])).orders = [] :=
  ⟨by decide, ⟨⟨"nope", 1, none⟩, by decide, by decide⟩,
    checkout_missing_product_aborts (some "sk_test") okGateway true demoStore []
      (CheckoutRequest.mk none [⟨"nope", 1, none⟩]) (by decide)
      ⟨⟨"nope", 1, none⟩, by decide, by decide⟩⟩

/-- C4 witness: the demo cart against a gateway that rejects the
session-creation call. -/
theorem checkout_gateway_failure_no_order_witness :
    strTruthy (some "sk_test") = true ∧
    buildItems demoStore demoCart.items
      = Except.ok ([demoLineItem], [demoOrderItem]) ∧
    failGateway { line_items := [demoLineItem],
                  customer_email :=
                    if strTruthy demoCart.email then demoCart.email else none }
      = Except.error "No such currency: xyz" ∧
    (create_checkout_session (some "sk_test") true failGateway true demoStore []
        demoCart).response
      = Except.error (CheckoutErr.paymentGateway "No such currency: xyz") ∧
    (create_checkout_session (some "sk_test") true failGateway true demoStore []
        demoCart).orders = [] := by
  have hb : buildItems demoStore demoCart.items
      = Except.ok ([demoLineItem], [demoOrderItem]) := by
    simp [buildItems, demoStore, demoCart, demoLineItem, demoOrderItem]
    norm_num [pyInt]
  have hmain := checkout_gateway_failure_no_order (some "sk_test") failGateway true
    demoStore [] demoCart [demoLineItem] [demoOrderItem] "No such currency: xyz"
    (by decide) hb rfl
  exact ⟨by decide, hb, rfl, hmain.1, hmain.2⟩

/-- C5 witness: the demo cart, a successful gateway call, and a
failing order insert — the session URL is still returned. -/
theorem checkout_persist_failure_still_returns_url_witness :
    strTruthy (some "sk_test") = true ∧
    buildItems demoStore demoCart.items
      = Except.ok ([demoLineItem], [demoOrderItem]) ∧
    okGateway { line_items := [demoLineItem],
                customer_email :=
                  if strTruthy demoCart.email then demoCart.email else none }
      = Except.ok demoSession ∧
    (create_checkout_session (some "sk_test") true okGateway false demoStore []
        demoCart).response = Except.ok demoSession.url ∧
    (create_checkout_session (some "sk_test") true okGateway false demoStore []
        demoCart).orders = [] := by
  have hb : buildItems demoStore demoCart.items
      = Except.ok ([demoLineItem], [demoOrderItem]) := by
    simp [buildItems, demoStore, demoCart, demoLineItem, demoOrderItem]
    norm_num [pyInt]
  have hmain := checkout_persist_failure_still_returns_url (some "sk_test") okGateway
    demoStore [] demoCart [demoLineItem] [demoOrderItem] demoSession
    (by decide) hb rfl
  exact ⟨by decide, hb, rfl, hmain.1, hmain.2⟩

/-- C2 witness: the demo cart (price 45.00, quantity 2): the order
total is `Σ price × quantity` and `100 × total` matches the gateway
`Σ unit_amount × quantity`. -/
theorem checkout_total_matches_gateway_witness :
    strTruthy (some "sk_test") = true ∧
    buildItems demoStore demoCart.items
      = Except.ok ([demoLineItem], [demoOrderItem]) ∧
    okGateway { line_items := [demoLineItem],
                customer_email :=
                  if strTruthy demoCart.email then demoCart.email else none }
      = Except.ok demoSession ∧
    (∀ oi ∈ [demoOrderItem], (oi.price * 100).den = 1) ∧
    ((create_checkout_session (some "sk_test") true okGateway true demoStore []
        demoCart).orders
      = [] ++ [checkoutOrder demoCart [demoOrderItem] demoSession] ∧
    (checkoutOrder demoCart [demoOrderItem] demoSession).total
      = ([demoOrderItem].map (fun oi => oi.price * (oi.quantity : ℚ))).sum ∧
    100 * (checkoutOrder demoCart [demoOrderItem] demoSession).total
      = ((([demoLineItem].map
            (fun li => li.unit_amount * (li.quantity : ℤ))).sum : ℤ) : ℚ)) := by
  have hb : buildItems demoStore demoCart.items
      = Except.ok ([demoLineItem], [demoOrderItem]) := by
    simp [buildItems, demoStore, demoCart, demoLineItem, demoOrderItem]
    norm_num [pyInt]
  have hc : ∀ oi ∈ [demoOrderItem], (oi.price * 100).den = 1 := by
    intro oi hoi
    simp at hoi
    subst hoi
    norm_num [demoOrderItem]
  have hmain := checkout_total_matches_gateway (some "sk_test") okGateway demoStore
    [] demoCart [demoLineItem] [demoOrderItem] demoSession (by decide) hb rfl
  exact ⟨by decide, hb, rfl, hc, hmain.1, hmain.2.1, hmain.2.2 hc⟩

/-- C10 witness: the demo cart with no email supplied: the stored
currency of the stored order is `"usd"`, its email is `""`, and the gateway line
item carried the stored currency of the product. -/
theorem checkout_order_currency_usd_witness :
    strTruthy (some "sk_test") = true ∧
    buildItems demoStore demoCart.items
      = Except.ok ([demoLineItem], [demoOrderItem]) ∧
    okGateway { line_items := [demoLineItem],
                customer_email :=
                  if strTruthy demoCart.email then demoCart.email else none }
      = Except.ok demoSession ∧
    ((create_checkout_session (some "sk_test") true okGateway true demoStore []
        demoCart).orders
      = [] ++ [checkoutOrder demoCart [demoOrderItem] demoSession] ∧
    (checkoutOrder demoCart [demoOrderItem] demoSession).currency = "usd" ∧
    (demoCart.email = none →
      (checkoutOrder demoCart [demoOrderItem] demoSession).email = "") ∧
    (create_checkout_session (some "sk_test") true okGateway true demoStore []
        demoCart).gatewayCalls
      = [{ line_items := [demoLineItem],
           customer_email :=
             if strTruthy demoCart.email then demoCart.email else none }] ∧
    List.Forall₂
      (fun (it : CheckoutItem) (li : LineItem) =>
        ∃ p, demoStore.find? (fun q => q.id = it.product_id) = some p ∧
          li.currency = p.currency)
      demoCart.items [demoLineItem]) := by
  have hb : buildItems demoStore demoCart.items
      = Except.ok ([demoLineItem], [demoOrderItem]) := by
    simp [buildItems, demoStore, demoCart, demoLineItem, demoOrderItem]
    norm_num [pyInt]
  exact ⟨by decide, hb, rfl,
    checkout_order_currency_usd (some "sk_test") okGateway demoStore []
      demoCart [demoLineItem] [demoOrderItem] demoSession (by decide) hb rfl⟩

/-- C6 witness: a configured secret and a delivery whose signature
verification failed, against one settled order. -/
theorem webhook_invalid_signature_rejected_witness :
    strTruthy (some "whsec_1") = true ∧
    stripe_webhook (some "whsec_1") true (Except.error "Invalid signature")
        [paidOrder]
      = (Except.error (WebhookErr.badRequest ("Webhook error: " ++ "Invalid signature")),
         [paidOrder]) :=
  ⟨by decide,
    webhook_invalid_signature_rejected (some "whsec_1") true "Invalid signature"
      [paidOrder] (by decide)⟩

/-- C9 witness: no secret configured; a well-formed
`checkout.session.completed` event whose session id matches a stored
pending order still changes nothing. -/
theorem webhook_no_secret_no_dispatch_witness :
    strTruthy none = false ∧
    stripe_webhook none true
        (Except.ok { type := "checkout.session.completed", objId := some "cs_1" })
        [pendingOrder]
      = (Except.ok { received := true, warning := some "No webhook secret set" },
         [pendingOrder]) :=
  ⟨rfl,
    webhook_no_secret_no_dispatch none true
      (Except.ok { type := "checkout.session.completed", objId := some "cs_1" })
      [pendingOrder] rfl⟩

/-- C7 witness: a verified completion event for an unknown session
id against one stored pending order. -/
theorem webhook_unmatched_event_acked_witness :
    strTruthy (some "whsec_1") = true ∧
    ((stripe_webhook (some "whsec_1") true
        (Except.ok { type := "checkout.session.completed", objId := some "cs_unknown" })
        [pendingOrder]).1
      = Except.ok { received := true, warning := none } ∧
    ((∀ o ∈ [pendingOrder],
        o.stripe_session_id
            ≠ (StripeEvent.mk "checkout.session.completed" (some "cs_unknown")).objId
          ∧ o.stripe_payment_intent_id
            ≠ (StripeEvent.mk "checkout.session.completed" (some "cs_unknown")).objId) →
      (stripe_webhook (some "whsec_1") true
          (Except.ok { type := "checkout.session.completed", objId := some "cs_unknown" })
          [pendingOrder]).2 = [pendingOrder]) ∧
    (((StripeEvent.mk "checkout.session.completed" (some "cs_unknown")).type
          ≠ "checkout.session.completed"
        ∧ (StripeEvent.mk "checkout.session.completed" (some "cs_unknown")).type
          ≠ "payment_intent.payment_failed") →
      (stripe_webhook (some "whsec_1") true
          (Except.ok { type := "checkout.session.completed", objId := some "cs_unknown" })
          [pendingOrder]).2 = [pendingOrder])) :=
  ⟨by decide,
    webhook_unmatched_event_acked (some "whsec_1") true
      (StripeEvent.mk "checkout.session.completed" (some "cs_unknown"))
      [pendingOrder] (by decide)⟩

/-- C1 witness (amended claim): the failure event for `pi_1`
rewrites the already-`paid` order referencing `pi_1` to `"failed"`. -/
theorem webhook_intent_failure_overwrites_terminal_witness :
    strTruthy (some "whsec_1") = true ∧
    ("pi_1" : String) ≠ "" ∧
    ((stripe_webhook (some "whsec_1") true
        (Except.ok { type := "payment_intent.payment_failed", objId := some "pi_1" })
        [paidOrder]).2
      = [paidOrder].map (fun o =>
          if o.stripe_payment_intent_id = some "pi_1" then
            { o with payment_status := "failed" }
          else o) ∧
    ∀ o ∈ [paidOrder], o.stripe_payment_intent_id = some "pi_1" →
      { o with payment_status := "failed" } ∈
        (stripe_webhook (some "whsec_1") true
            (Except.ok { type := "payment_intent.payment_failed", objId := some "pi_1" })
            [paidOrder]).2) :=
  ⟨by decide, by decide,
    webhook_intent_failure_overwrites_terminal (some "whsec_1") [paidOrder] "pi_1"
      (by decide) (by decide)⟩

/-- C8 witness: a fresh subscription of `Foo@Bar.Com` stores
`foo@bar.com` once; re-subscribing as `fOO@bAR.cOM` is an ok no-op. -/
theorem subscribe_idempotent_lowercased_witness :
    ([] : List String).contains (strLower "Foo@Bar.Com") = false ∧
    strLower "fOO@bAR.cOM" = strLower "Foo@Bar.Com" ∧
    ((subscribe_email true [] "Foo@Bar.Com").1 = Except.ok (true, none) ∧
    (subscribe_email true [] "Foo@Bar.Com").2 = [] ++ [strLower "Foo@Bar.Com"] ∧
    (subscribe_email true (subscribe_email true [] "Foo@Bar.Com").2 "fOO@bAR.cOM").1
      = Except.ok (true, some "Already subscribed") ∧
    (subscribe_email true (subscribe_email true [] "Foo@Bar.Com").2 "fOO@bAR.cOM").2
      = (subscribe_email true [] "Foo@Bar.Com").2) :=
  ⟨by decide, by decide,
    subscribe_idempotent_lowercased [] "Foo@Bar.Com" "fOO@bAR.cOM"
      (by decide) (by decide)⟩
